import Mathlib

/-!
Verification development for the Community ERP student-record backend.

The Python sources are shallowly embedded: the MongoDB collections become
lists of records, `update_one` becomes an update of the first matching
record together with matched/modified counts, float scores become exact
rationals, and the two external models (captioning and OCR) become
parameters whose possible failure is an `Except` value mirroring the
`try`/`except` blocks of `main.py`.
-/

namespace CommunityERP

/-! ## String helpers mirroring the Python string operations used in the code -/

/-- Python `s.lower()` (ASCII case folding, as used on the identifiers here). -/
def strLower (s : String) : String := ⟨s.data.map Char.toLower⟩

/-- Python `pat in s` on the underlying character lists: is `pat` a
contiguous sublist of `l`? -/
def containsSub (pat : List Char) : List Char → Bool
  | [] => pat.isEmpty
  | c :: rest => List.isPrefixOf pat (c :: rest) || containsSub pat rest

/-- Python `pat in s` (contiguous substring test, empty pattern succeeds). -/
def strContains (s pat : String) : Bool := containsSub pat.data s.data

/-- Worker for `pySplit`: splits at whitespace, dropping empty pieces,
carrying the (reversed) current word. -/
def pySplitChars : List Char → List Char → List String
  | [], acc => if acc = [] then [] else [⟨acc.reverse⟩]
  | c :: rest, acc =>
    if c.isWhitespace then
      (if acc = [] then [] else [⟨acc.reverse⟩]) ++ pySplitChars rest []
    else pySplitChars rest (c :: acc)

/-- Python `s.split()` with no argument: split on runs of whitespace,
no empty tokens. -/
def pySplit (s : String) : List String := pySplitChars s.data []

/-- Python `s.strip()`: drop leading and trailing whitespace. -/
def pyStrip (s : String) : String :=
  ⟨((s.data.dropWhile Char.isWhitespace).reverse.dropWhile Char.isWhitespace).reverse⟩

/-- The chained `.replace(" ", "").replace("-", "").replace("_", "")` used by
the roll-number check in `verify_college_id_with_models`. -/
def cleanChars (s : String) : String :=
  ⟨s.data.filter (fun c => !(c == ' ' || c == '-' || c == '_'))⟩

/-- Worker for `splitFirstOn`: split a character list at the first
occurrence of `sep`. -/
def splitFirstAux (sep : List Char) : List Char → Option (List Char × List Char)
  | [] => none
  | c :: rest =>
    if List.isPrefixOf sep (c :: rest) then some ([], (c :: rest).drop sep.length)
    else
      match splitFirstAux sep rest with
      | none => none
      | some (l, r) => some (c :: l, r)

/-- Python `s.split(sep, 1)` when `sep` occurs in `s`: the parts before and
after the first occurrence of `sep`; `none` when `sep` does not occur. -/
def splitFirstOn (s sep : String) : Option (String × String) :=
  match splitFirstAux sep.data s.data with
  | none => none
  | some (l, r) => some (⟨l⟩, ⟨r⟩)

/-! ## OCR model output (`models.extract_text` in `main.py`)

The captioning and OCR models are external; their outputs (or the exception
they raise, mirroring the `try`/`except` wrapper) are inputs of the
embedded verification functions. -/

/-- The dictionary returned by `models.extract_text`: the concatenated
text and the per-token confidence scores. -/
structure OcrData where
  full_text : String
  confidence_scores : List ℚ
deriving DecidableEq

/-! ## College-ID verification heuristic (`verify_college_id_with_models`) -/

/-- The three caption keywords checked for ID cards (main.py lines 112-114). -/
def idCaptionOk (caption : String) : Bool :=
  ["yes", "id", "student"].any (fun k => strContains (strLower caption) k)

/-- Rejection message when the caption check fails for an ID card. -/
def msgNotIdCard : String :=
  "The uploaded image does not appear to be a valid college ID card"

/-- Rejection message when OCR found no text on an ID card. -/
def msgNoTextId : String :=
  "Could not extract any text from the ID card. Please upload a clearer image"

/-- Rejection message of the student-name stage for ID cards. -/
def idNameRejectMsg (student_name : String) : String :=
  "Student name \x27" ++ student_name ++
    "\x27 does not match the name on the ID card. Please ensure the name matches your registration."

/-- Rejection message of the roll-number stage for ID cards. -/
def idRollRejectMsg (roll_no : String) : String :=
  "Roll number \x27" ++ roll_no ++
    "\x27 does not match the ID on the card. Please verify your roll number and try again."

/-- Success message of ID verification. -/
def idSuccessMsg : String := "College ID verified successfully"

/-- Message built by the `except` handler of `verify_college_id_with_models`. -/
def idErrorMsg (e : String) : String := "Error processing college ID: " ++ e

/-- The name-match ratio of `verify_college_id_with_models` (main.py lines
130-134): fraction of whitespace tokens of the lowercased name of length
greater than 2 that occur in the lowercased OCR text, `0` for an empty name. -/
def idNameRatio (student_name extracted_text : String) : ℚ :=
  let name_parts := pySplit (strLower student_name)
  let matched_parts :=
    (name_parts.filter (fun p => decide (2 < p.length) && strContains extracted_text p)).length
  if name_parts = [] then 0 else (matched_parts : ℚ) / (name_parts.length : ℚ)

/-- The fallback character-overlap ratio of the roll-number stage (main.py
lines 145-146): fraction of characters of the cleaned roll number that occur
anywhere in the cleaned OCR text, `0` for an empty cleaned roll number. -/
def idRollRatio (roll_no_clean extracted_clean : String) : ℚ :=
  let matched_chars :=
    (roll_no_clean.data.filter (fun c => extracted_clean.data.contains c)).length
  if roll_no_clean = "" then 0 else (matched_chars : ℚ) / (roll_no_clean.length : ℚ)

/-- Steps 5-6 of `verify_college_id_with_models` (main.py lines 139-155):
roll-number check and extraction of the returned college-id text. -/
def idRollStage (roll_no extracted_text ocr_full_text : String) : Bool × String × String :=
  let roll_no_clean := cleanChars (strLower roll_no)
  let extracted_clean := cleanChars extracted_text
  if strContains extracted_clean roll_no_clean then
    (true, idSuccessMsg, pyStrip ocr_full_text)
  else if idRollRatio roll_no_clean extracted_clean < 3/5 then
    (false, idRollRejectMsg roll_no, "")
  else
    (true, idSuccessMsg, pyStrip ocr_full_text)

/-- `verify_college_id_with_models` (main.py lines 94-159).  `caption_result`
and `ocr_result` are the outcomes of the two external model calls; an
`Except.error` value is the exception caught by the surrounding
`try`/`except`, which downgrades to a rejection. -/
def verify_college_id_with_models (caption_result : Except String String)
    (ocr_result : Except String OcrData) (student_name roll_no : String) :
    Bool × String × String :=
  match caption_result with
  | Except.error e => (false, idErrorMsg e, "")
  | Except.ok caption =>
    if !(idCaptionOk caption) then (false, msgNotIdCard, "")
    else
      match ocr_result with
      | Except.error e => (false, idErrorMsg e, "")
      | Except.ok ocr =>
        let extracted_text := strLower ocr.full_text
        if extracted_text = "" then (false, msgNoTextId, "")
        else if idNameRatio student_name extracted_text < 3/5 then
          (false, idNameRejectMsg student_name, "")
        else idRollStage roll_no extracted_text ocr.full_text

/-! ## Certificate verification heuristic (`verify_certificate_with_ai`) -/

/-- The confidence-score dictionary of `verify_certificate_with_ai`. -/
structure ConfidenceScores where
  overall_confidence : ℚ
  image_type_match : ℚ
  student_name_match : ℚ
  institution_match : ℚ
  skill_match : ℚ
  ocr_confidence : ℚ
deriving DecidableEq

/-- The all-zero initial confidence scores. -/
def zeroScores : ConfidenceScores :=
  { overall_confidence := 0, image_type_match := 0, student_name_match := 0
    institution_match := 0, skill_match := 0, ocr_confidence := 0 }

/-- The three caption keywords checked for certificates (main.py lines 189-191). -/
def certCaptionOk (caption : String) : Bool :=
  ["yes", "certificate", "award"].any (fun k => strContains (strLower caption) k)

/-- Rejection message when the caption check fails for a certificate. -/
def msgNotCert : String :=
  "The uploaded image does not appear to be a valid certificate"

/-- Rejection message when OCR found no text on a certificate. -/
def msgNoTextCert : String :=
  "Could not extract any text from the certificate. Please upload a clearer image"

/-- Rejection message of the student-name stage for certificates. -/
def certNameRejectMsg (student_name : String) : String :=
  "Student name \x27" ++ student_name ++ "\x27 does not match the name on the certificate"

/-- Rejection message of the institution stage for certificates. -/
def certInstRejectMsg (institution_name : String) : String :=
  "Institution name \x27" ++ institution_name ++ "\x27 does not match the certificate content"

/-- Rejection message of the skill stage for certificates. -/
def certSkillRejectMsg (expected_skill : String) : String :=
  "Skill/Achievement \x27" ++ expected_skill ++ "\x27 does not match the certificate content"

/-- Success message of certificate verification. -/
def certSuccessMsg : String := "Certificate verified successfully"

/-- Message built by the `except` handler of `verify_certificate_with_ai`. -/
def certErrorMsg (e : String) : String := "Error processing certificate: " ++ e

/-- Python `round(q, 2)`.  Floats are modelled by exact rationals; ties round
half-up here, which agrees with the code away from exact half-hundredths. -/
def round2 (q : ℚ) : ℚ := (round (q * 100) : ℤ) / 100

/-- Average OCR token confidence, rounded to two places; `0` when the token
list is empty (main.py lines 218-222). -/
def avgConf (confs : List ℚ) : ℚ :=
  if confs = [] then 0 else round2 (confs.sum / (confs.length : ℚ))

/-- The final weighted overall confidence of `verify_certificate_with_ai`
(main.py lines 298-304), also used by the skill-stage rejection. -/
def certFinalWeight (sc : ConfidenceScores) : ℚ :=
  sc.image_type_match * (1/5) + sc.student_name_match * (1/5) +
    sc.institution_match * (3/20) + sc.skill_match * (1/5) + sc.ocr_confidence * (1/4)

/-- Step 7 of `verify_certificate_with_ai` (main.py lines 277-307): match the
expected skill words against the OCR text, then compute the overall score. -/
def certSkillStage (scores : ConfidenceScores) (extracted_text expected_skill : String) :
    Bool × String × ConfidenceScores :=
  let skill_words := (pySplit expected_skill).filter (fun w => decide (2 < w.length))
  if skill_words = [] then
    let scores2 := { scores with skill_match := 1 }
    (true, certSuccessMsg, { scores2 with overall_confidence := round2 (certFinalWeight scores2) })
  else
    let matched := (skill_words.filter (fun w => strContains extracted_text w)).length
    let ratio : ℚ := (matched : ℚ) / (skill_words.length : ℚ)
    let scores2 := { scores with skill_match := round2 ratio }
    if ratio < 3/5 then
      (false, certSkillRejectMsg expected_skill,
        { scores2 with overall_confidence := round2 (certFinalWeight scores2) })
    else
      (true, certSuccessMsg, { scores2 with overall_confidence := round2 (certFinalWeight scores2) })

/-- Step 6 of `verify_certificate_with_ai` (main.py lines 256-275): match the
institution words, when a description supplied one, against the OCR text. -/
def certInstitutionStage (scores : ConfidenceScores) (extracted_text : String)
    (institution_name : Option String) (expected_skill : String) :
    Bool × String × ConfidenceScores :=
  match institution_name with
  | none => certSkillStage { scores with institution_match := 1 } extracted_text expected_skill
  | some inst =>
    let institution_words := (pySplit inst).filter (fun w => decide (2 < w.length))
    if institution_words = [] then
      certSkillStage { scores with institution_match := 1 } extracted_text expected_skill
    else
      let matched := (institution_words.filter (fun w => strContains extracted_text w)).length
      let ratio : ℚ := (matched : ℚ) / (institution_words.length : ℚ)
      let scores2 := { scores with institution_match := round2 ratio }
      if ratio < 3/5 then
        (false, certInstRejectMsg inst,
          { scores2 with overall_confidence := round2 (scores2.image_type_match * (1/5) +
              scores2.student_name_match * (1/5) + scores2.institution_match * (1/5) +
              scores2.ocr_confidence * (2/5)) })
      else certSkillStage scores2 extracted_text expected_skill

/-- Step 5 of `verify_certificate_with_ai` (main.py lines 247-254): split an
optional "Institution - Skill" description at the first " - ". -/
def certDescriptionParse (skill_or_achievement : String) (description : Option String) :
    Option String × String :=
  match description with
  | some d =>
    match splitFirstOn d " - " with
    | some (l, r) => (some (strLower (pyStrip l)), strLower (pyStrip r))
    | none => (none, strLower skill_or_achievement)
  | none => (none, strLower skill_or_achievement)

/-- Steps 5-7 of `verify_certificate_with_ai`: everything after the
student-name stage. -/
def certAfterName (scores : ConfidenceScores) (extracted_text skill_or_achievement : String)
    (description : Option String) : Bool × String × ConfidenceScores :=
  let parsed := certDescriptionParse skill_or_achievement description
  certInstitutionStage scores extracted_text parsed.1 parsed.2

/-- `verify_certificate_with_ai` (main.py lines 171-319).  As for the ID
function, the external model outcomes are parameters and `Except.error`
mirrors the caught exception. -/
def verify_certificate_with_ai (caption_result : Except String String)
    (ocr_result : Except String OcrData) (student_name skill_or_achievement : String)
    (description : Option String) : Bool × String × ConfidenceScores :=
  match caption_result with
  | Except.error e => (false, certErrorMsg e, zeroScores)
  | Except.ok caption =>
    if !(certCaptionOk caption) then (false, msgNotCert, zeroScores)
    else
      match ocr_result with
      | Except.error e => (false, certErrorMsg e, zeroScores)
      | Except.ok ocr =>
        let extracted_text := strLower ocr.full_text
        let scores1 : ConfidenceScores :=
          { zeroScores with image_type_match := 1, ocr_confidence := avgConf ocr.confidence_scores }
        if extracted_text = "" then
          (false, msgNoTextCert,
            { scores1 with overall_confidence := scores1.ocr_confidence * (1/5) })
        else
          let name_parts := pySplit (strLower student_name)
          if name_parts = [] then
            certAfterName { scores1 with student_name_match := 1 }
              extracted_text skill_or_achievement description
          else
            let matched :=
              (name_parts.filter (fun p => decide (2 < p.length) && strContains extracted_text p)).length
            let ratio : ℚ := (matched : ℚ) / (name_parts.length : ℚ)
            let scores2 := { scores1 with student_name_match := round2 ratio }
            if ratio < 3/5 then
              (false, certNameRejectMsg student_name,
                { scores2 with overall_confidence := round2 (scores2.image_type_match * (1/4) +
                    scores2.student_name_match * (1/4) + scores2.ocr_confidence * (1/2)) })
            else certAfterName scores2 extracted_text skill_or_achievement description

/-! ## Data model (documents of the `students` and `colleges` collections) -/

/-- A skill or achievement item (`crud.add_skills` / `crud.add_achievements`). -/
structure SkillItem where
  name : String
  verified : Bool
  certificate : Option String
  description : Option String
deriving DecidableEq

/-- A project item (`crud.add_projects`). -/
structure ProjectItem where
  name : String
  verified : Bool
  github_link : String
  description : Option String
deriving DecidableEq

/-- A comment on a student profile (`crud.add_comment`). -/
structure Comment where
  author : String
  author_type : String
  text : String
  timestamp : String
deriving DecidableEq

/-- A student document (`crud.create_student`). -/
structure Student where
  college_name : String
  name : String
  email : String
  phone : String
  roll_no : String
  password : String
  branch : String
  year : Nat
  age : Nat
  college_id_pic : Option String
  skills : List SkillItem
  achievements : List SkillItem
  projects : List ProjectItem
  comments : List Comment
deriving DecidableEq

/-- A college document (`crud.create_college`). -/
structure College where
  name : String
  address : String
  contact_email : String
  contact_phone : String
  college_id : String
  admin_password : String
deriving DecidableEq

/-- MongoDB `update_one`: rewrite the first record satisfying the filter.
Returns the new collection together with `matched_count` and
`modified_count` (the latter is `0` when the update left the record equal
to what was stored, as Mongo reports it). -/
def updateFirstWhere (p : Student → Bool) (f : Student → Student) :
    List Student → List Student × Nat × Nat
  | [] => ([], 0, 0)
  | s :: rest =>
    if p s then (f s :: rest, 1, if f s = s then 0 else 1)
    else
      let r := updateFirstWhere p f rest
      (s :: r.1, r.2.1, r.2.2)

/-- `crud.get_student_by_roll_no`: `find_one` on the roll number. -/
def get_student_by_roll_no (roll_no : String) (db : List Student) : Option Student :=
  db.find? (fun s => s.roll_no == roll_no)

/-- The positional `skills.$.verified = True` update of
`crud.verify_student_skill`: set the first name-matching skill verified. -/
def setFirstSkillVerified (skill_name : String) : List SkillItem → List SkillItem
  | [] => []
  | sk :: rest =>
    if sk.name == skill_name then { sk with verified := true } :: rest
    else sk :: setFirstSkillVerified skill_name rest

/-- `crud.verify_student_skill` (crud.py lines 319-334): find the student,
run the positional update, and report success exactly when
`modified_count > 0`. -/
def verify_student_skill (roll_no skill_name : String) (db : List Student) :
    List Student × Bool × String :=
  match db.find? (fun s => s.roll_no == roll_no) with
  | none => (db, false, "Student not found")
  | some _ =>
    let r := updateFirstWhere
      (fun s => s.roll_no == roll_no && s.skills.any (fun sk => sk.name == skill_name))
      (fun s => { s with skills := setFirstSkillVerified skill_name s.skills }) db
    if 0 < r.2.2 then
      (r.1, true, "Skill \x27" ++ skill_name ++ "\x27 verified successfully")
    else
      (r.1, false, "Skill \x27" ++ skill_name ++ "\x27 not found")

/-- Result of `crud.add_projects`: the Python function returns either the
literal rejection string, `None` for a missing student, or the updated
student record. -/
inductive AddProjectsResult
  | invalidLink (msg : String)
  | studentNotFound
  | updated (student : Option Student)
deriving DecidableEq

/-- `crud.add_projects` (crud.py lines 225-249): validate the repository
link, then push the new project onto the student's projects array. -/
def add_projects (roll_no project_name github_link : String) (db : List Student) :
    List Student × AddProjectsResult :=
  if github_link == "" ||
      !(strContains (strLower github_link) "github.com" ||
        strContains (strLower github_link) "gitlab.com") then
    (db, AddProjectsResult.invalidLink "Invalid repository link. Must be from GitHub or GitLab")
  else
    match db.find? (fun s => s.roll_no == roll_no) with
    | none => (db, AddProjectsResult.studentNotFound)
    | some _ =>
      let proj : ProjectItem :=
        { name := project_name, verified := false, github_link := github_link, description := none }
      let r := updateFirstWhere (fun s => s.roll_no == roll_no)
        (fun s => { s with projects := s.projects ++ [proj] }) db
      (r.1, AddProjectsResult.updated (get_student_by_roll_no roll_no r.1))

/-- `crud.delete_comment` (crud.py lines 409-419): `$pull` the comments with
the given timestamp from the student document, succeed exactly when
`modified_count > 0`. -/
def delete_comment (roll_no timestamp : String) (db : List Student) :
    List Student × Bool × String :=
  let r := updateFirstWhere (fun s => s.roll_no == roll_no)
    (fun s => { s with comments := s.comments.filter (fun c => !(c.timestamp == timestamp)) }) db
  if 0 < r.2.2 then (r.1, true, "Comment deleted successfully")
  else (r.1, false, "Comment not found")

/-- The `StudentUpdate` payload (schemas.py lines 71-81): every field
optional; `none` is a field left unset. -/
structure StudentUpdate where
  college_name : Option String
  name : Option String
  email : Option String
  phone : Option String
  roll_no : Option String
  branch : Option String
  year : Option Nat
  age : Option Nat
  college_id_pic : Option String
deriving DecidableEq

/-- Pydantic `dict(exclude_unset=True)` is empty exactly when no field was
supplied. -/
def StudentUpdate.isEmpty (u : StudentUpdate) : Bool :=
  u.college_name.isNone && u.name.isNone && u.email.isNone && u.phone.isNone &&
    u.roll_no.isNone && u.branch.isNone && u.year.isNone && u.age.isNone &&
    u.college_id_pic.isNone

/-- The `$set` of the supplied fields of a `StudentUpdate` onto a stored
student document. -/
def applyStudentUpdate (u : StudentUpdate) (s : Student) : Student :=
  { s with
    college_name := u.college_name.getD s.college_name
    name := u.name.getD s.name
    email := u.email.getD s.email
    phone := u.phone.getD s.phone
    roll_no := u.roll_no.getD s.roll_no
    branch := u.branch.getD s.branch
    year := u.year.getD s.year
    age := u.age.getD s.age
    college_id_pic :=
      match u.college_id_pic with
      | some p => some p
      | none => s.college_id_pic }

/-- `crud.update_student` (crud.py lines 137-152): with an empty payload,
no write happens and the current record is returned; otherwise `$set` the
supplied fields on the first matching document and re-read it. -/
def update_student (roll_no : String) (u : StudentUpdate) (db : List Student) :
    List Student × Option Student :=
  if u.isEmpty then (db, get_student_by_roll_no roll_no db)
  else
    let r := updateFirstWhere (fun s => s.roll_no == roll_no) (applyStudentUpdate u) db
    if r.2.1 = 0 then (r.1, none)
    else (r.1, get_student_by_roll_no roll_no r.1)

/-- Does inserting this college trip one of the four unique indexes created
in database.py? -/
def collegeUniqueCollision (c : College) (db : List College) : Bool :=
  db.any (fun x => x.name == c.name || x.college_id == c.college_id ||
    x.contact_email == c.contact_email || x.contact_phone == c.contact_phone)

/-- The `except DuplicateKeyError` branch of `crud.create_college` (crud.py
lines 41-53): inspect `str(e)` and name the colliding field. -/
def create_college_dup_message (error_msg : String) (c : College) : String :=
  if strContains error_msg "name" then
    "College name \x27" ++ c.name ++ "\x27 already exists"
  else if strContains error_msg "college_id" then
    "College ID \x27" ++ c.college_id ++ "\x27 already exists"
  else if strContains error_msg "contact_email" then
    "Contact email \x27" ++ c.contact_email ++ "\x27 already exists"
  else if strContains error_msg "contact_phone" then
    "Contact phone \x27" ++ c.contact_phone ++ "\x27 already exists"
  else "Duplicate entry detected. Please check all fields."

/-- `crud.create_college` (crud.py lines 25-53).  The text of the
`DuplicateKeyError` is produced by the external store, so it is a
parameter `store_error_msg`; a unique-index collision makes the insert
raise with that text, which the function translates to a `ValueError`
message (the `Sum.inr` case). -/
def create_college (c : College) (db : List College) (store_error_msg : String) :
    List College ⊕ String :=
  if collegeUniqueCollision c db then Sum.inr (create_college_dup_message store_error_msg c)
  else Sum.inl (db ++ [c])

/-- Does inserting this student trip one of the three unique indexes created
in database.py? -/
def studentUniqueCollision (s : Student) (db : List Student) : Bool :=
  db.any (fun x => x.email == s.email || x.phone == s.phone || x.roll_no == s.roll_no)

/-- The `except DuplicateKeyError` branch of `crud.create_student` (crud.py
lines 102-111). -/
def create_student_dup_message (error_msg : String) (s : Student) : String :=
  if strContains error_msg "email" then
    "Email \x27" ++ s.email ++ "\x27 already exists"
  else if strContains error_msg "phone" then
    "Phone number \x27" ++ s.phone ++ "\x27 already exists"
  else if strContains error_msg "roll_no" then
    "Roll number \x27" ++ s.roll_no ++ "\x27 already exists"
  else "Duplicate entry detected"

/-- `crud.create_student` (crud.py lines 79-111), with the store's
duplicate-key error text as a parameter, as for `create_college`. -/
def create_student (s : Student) (db : List Student) (store_error_msg : String) :
    List Student ⊕ String :=
  if studentUniqueCollision s db then Sum.inr (create_student_dup_message store_error_msg s)
  else Sum.inl (db ++ [s])

/-! ## The name-match ratio as the specification words it (for claim C3) -/

/-- Stated from the spec for the refinement claim C3: "(count of name tokens
of length greater than 2 found as substrings of OCR text) / (total name
tokens)", with division as in ℚ. -/
def spec_nameMatchRatio (student_name extracted_text : String) : ℚ :=
  (((pySplit (strLower student_name)).filter
      (fun p => decide (2 < p.length) && strContains extracted_text p)).length : ℚ)
    / ((pySplit (strLower student_name)).length : ℚ)

/-! ## Concrete records used by the witnesses -/

/-- A student with one unverified "python" skill (used by C1 and C5/C7). -/
def c1Student : Student :=
  { college_name := "Tech College", name := "John Doe", email := "john@example.com"
    phone := "1234567890", roll_no := "CS101", password := "hashedpw", branch := "CSE"
    year := 2, age := 20, college_id_pic := none
    skills := [{ name := "python", verified := false, certificate := none, description := none }]
    achievements := [], projects := [], comments := [] }

/-- The college inserted in the C7 witness. -/
def c7College : College :=
  { name := "Alpha Institute", address := "1 Main St", contact_email := "a@alpha.edu"
    contact_phone := "1112223333", college_id := "COLL001", admin_password := "pw" }

/-- A second college colliding with `c7College` on `college_id`. -/
def c7CollegeOld : College :=
  { name := "Beta Institute", address := "2 Side St", contact_email := "b@beta.edu"
    contact_phone := "4445556666", college_id := "COLL001", admin_password := "pw2" }

/-- A student colliding with `c1Student` on `roll_no`. -/
def c7Student : Student :=
  { college_name := "Tech College", name := "Jane Roe", email := "jane@example.com"
    phone := "0987654321", roll_no := "CS101", password := "pw", branch := "ECE"
    year := 3, age := 21, college_id_pic := none
    skills := [], achievements := [], projects := [], comments := [] }

/-- The student used in the C8/C9 witnesses, carrying one comment. -/
def c8Student : Student :=
  { college_name := "Tech College", name := "Amy Poe", email := "amy@example.com"
    phone := "5556667777", roll_no := "CS102", password := "pw", branch := "CSE"
    year := 1, age := 19, college_id_pic := none
    skills := [], achievements := [], projects := []
    comments := [{ author := "admin", author_type := "admin", text := "Nice work"
                   timestamp := "2024-01-01T00:00:00" }] }

/-- The payload used in the C9 witness: only `name` supplied. -/
def c9Update : StudentUpdate :=
  { college_name := none, name := some "Jane Doe", email := none, phone := none
    roll_no := none, branch := none, year := none, age := none, college_id_pic := none }

/-- The score record holding after a passing caption, OCR extraction and an
empty token list for the student name (claim C10). -/
def c10Scores (confs : List ℚ) : ConfidenceScores :=
  { zeroScores with image_type_match := 1, ocr_confidence := avgConf confs, student_name_match := 1 }

/-! ## Helper lemmas -/

/-- `containsSub` decides the contiguous-sublist relation. -/
theorem containsSub_eq_true_iff (pat : List Char) :
    ∀ l : List Char, containsSub pat l = true ↔ pat <:+: l := by
  intro l
  induction l with
  | nil =>
    simp [containsSub, List.isEmpty_iff, List.infix_nil]
  | cons c rest ih =>
    simp only [containsSub, Bool.or_eq_true, ih, List.infix_cons_iff,
       List.isPrefixOf_iff_prefix]

/-- Substring containment is transitive. -/
theorem strContains_trans {s b a : String} (h1 : strContains s b = true)
    (h2 : strContains b a = true) : strContains s a = true := by
  rw [strContains, containsSub_eq_true_iff] at h1 h2 ⊢
  exact h2.trans h1

/-- A string contains its own right append part. -/
theorem strContains_append_right (a b : String) : strContains (a ++ b) b = true := by
  rw [strContains, containsSub_eq_true_iff, String.data_append]
  exact (List.suffix_append a.data b.data).isInfix

/-- When the update function fixes the first matching record, `update_one`
leaves the collection unchanged and reports `modified_count = 0`. -/
theorem updateFirstWhere_fix (p : Student → Bool) (f : Student → Student) :
    ∀ db : List Student, (∀ s, db.find? p = some s → f s = s) →
      updateFirstWhere p f db = (db, if (db.find? p).isSome then 1 else 0, 0) := by
  intro db
  induction db with
  | nil => intro _; simp [updateFirstWhere]
  | cons s rest ih =>
    intro h
    by_cases hp : p s
    · have hs : f s = s := h s (by simp [List.find?_cons_of_pos _ hp])
      simp [updateFirstWhere, hp, hs, List.find?_cons_of_pos _ hp]
    · have hrec := ih (fun t ht => h t (by simp [List.find?_cons_of_neg _ hp, ht]))
      simp [updateFirstWhere, hp, hrec, List.find?_cons_of_neg _ hp]

/-- `update_one` on a collection whose first match is the explicit record
`s`: only `s` is rewritten. -/
theorem updateFirstWhere_append (p : Student → Bool) (f : Student → Student)
    (s : Student) (l₂ : List Student) :
    ∀ l₁ : List Student, (∀ x ∈ l₁, p x = false) → p s = true →
      updateFirstWhere p f (l₁ ++ s :: l₂) =
        (l₁ ++ f s :: l₂, 1, if f s = s then 0 else 1) := by
  intro l₁
  induction l₁ with
  | nil => intro _ hs; simp [updateFirstWhere, hs]
  | cons x xs ih =>
    intro h hs
    have hx : p x = false := h x (by simp)
    have hrec := ih (fun y hy => h y (by simp [hy])) hs
    simp [updateFirstWhere, hx, hrec]

/-- The skill stage never changes the student-name score. -/
theorem certSkillStage_name_match (sc : ConfidenceScores) (t sk : String) :
    ((certSkillStage sc t sk).2.2).student_name_match = sc.student_name_match := by
  simp only [certSkillStage]
  split
  · rfl
  · split
    · rfl
    · rfl

/-- The institution stage never changes the student-name score. -/
theorem certInstitutionStage_name_match (sc : ConfidenceScores) (t : String)
    (inst : Option String) (sk : String) :
    ((certInstitutionStage sc t inst sk).2.2).student_name_match = sc.student_name_match := by
  cases inst with
  | none =>
    simp only [certInstitutionStage]
    rw [certSkillStage_name_match]
  | some i =>
    simp only [certInstitutionStage]
    split
    · rw [certSkillStage_name_match]
    · split
      · rfl
      · rw [certSkillStage_name_match]

/-- The stages after the student-name stage never change the student-name
score. -/
theorem certAfterName_name_match (sc : ConfidenceScores) (t sk : String)
    (d : Option String) :
    ((certAfterName sc t sk d).2.2).student_name_match = sc.student_name_match := by
  simp only [certAfterName]
  rw [certInstitutionStage_name_match]

/-- With a passing caption and non-empty OCR text, ID verification is the
name-stage decision followed by the roll-number stage. -/
theorem verify_id_name_stage (caption student_name roll_no : String) (ocr : OcrData)
    (hcap : idCaptionOk caption = true) (hocr : strLower ocr.full_text ≠ "") :
    verify_college_id_with_models (Except.ok caption) (Except.ok ocr) student_name roll_no
      = (if idNameRatio student_name (strLower ocr.full_text) < 3/5 then
          (false, idNameRejectMsg student_name, "")
        else idRollStage roll_no (strLower ocr.full_text) ocr.full_text) := by
  simp only [verify_college_id_with_models, hcap, Bool.not_true, Bool.false_eq_true,
    if_false, if_neg hocr]

/-! ## Claim C1 -/

/-- Claim C1: `verify_student_skill` is claimed idempotent, but the code
keys success on `modified_count`.  The first call verifies the skill
(leaving it present with `verified = true`), and the second call on the
resulting state modifies nothing and is reported as "Skill not found"
(which `main.py` maps to a 404 error), although the skill exists. -/
theorem claim_C1_reverify_reports_not_found :
    (verify_student_skill "CS101" "python" [c1Student]).2.1 = true
    ∧ (verify_student_skill "CS101" "python" [c1Student]).1
        = [{ c1Student with
              skills := [{ name := "python", verified := true, certificate := none,
                           description := none }] }]
    ∧ verify_student_skill "CS101" "python"
        (verify_student_skill "CS101" "python" [c1Student]).1
      = ((verify_student_skill "CS101" "python" [c1Student]).1, false,
          "Skill \x27python\x27 not found") := by
  decide

/-! ## Claim C5 -/

/-- Claim C5: for every link whose lowercased form contains neither
"github.com" nor "gitlab.com" (the empty link included), `add_projects`
returns the literal rejection message and leaves the collection — hence
every projects list — unchanged. -/
theorem claim_C5_invalid_link_rejected (roll_no project_name github_link : String)
    (db : List Student)
    (h1 : strContains (strLower github_link) "github.com" = false)
    (h2 : strContains (strLower github_link) "gitlab.com" = false) :
    add_projects roll_no project_name github_link db
      = (db, AddProjectsResult.invalidLink
          "Invalid repository link. Must be from GitHub or GitLab") := by
  simp [add_projects, h1, h2]

/-- Witness for C5 at a concrete non-GitHub/GitLab link. -/
theorem claim_C5_witness :
    strContains (strLower "https://bitbucket.org/user/repo") "github.com" = false
    ∧ strContains (strLower "https://bitbucket.org/user/repo") "gitlab.com" = false
    ∧ add_projects "CS101" "My Project" "https://bitbucket.org/user/repo" [c1Student]
        = ([c1Student], AddProjectsResult.invalidLink
            "Invalid repository link. Must be from GitHub or GitLab") :=
  ⟨by decide, by decide,
    claim_C5_invalid_link_rejected "CS101" "My Project" "https://bitbucket.org/user/repo"
      [c1Student] (by decide) (by decide)⟩

/-! ## Claim C6 -/

/-- Claim C6: every exception raised during the verification heuristics
(modelled as an `Except.error` outcome of the caption call or of the OCR
call) is downgraded to a rejection whose message contains the exception
text, instead of propagating. -/
theorem claim_C6_exception_downgrades (e caption student_name roll_no skill : String)
    (desc : Option String) (ocr_result : Except String OcrData)
    (hid : idCaptionOk caption = true) (hcert : certCaptionOk caption = true) :
    (verify_college_id_with_models (Except.error e) ocr_result student_name roll_no
        = (false, idErrorMsg e, ""))
    ∧ (verify_college_id_with_models (Except.ok caption) (Except.error e) student_name roll_no
        = (false, idErrorMsg e, ""))
    ∧ (verify_certificate_with_ai (Except.error e) ocr_result student_name skill desc
        = (false, certErrorMsg e, zeroScores))
    ∧ (verify_certificate_with_ai (Except.ok caption) (Except.error e) student_name skill desc
        = (false, certErrorMsg e, zeroScores))
    ∧ strContains (idErrorMsg e) e = true
    ∧ strContains (certErrorMsg e) e = true := by
  refine ⟨rfl, ?_, rfl, ?_, strContains_append_right _ e, strContains_append_right _ e⟩
  · simp [verify_college_id_with_models, hid]
  · simp [verify_certificate_with_ai, hcert]

/-- Witness for C6 with exception text "boom" behind a passing caption. -/
theorem claim_C6_witness :
    idCaptionOk "yes" = true ∧ certCaptionOk "yes" = true
    ∧ verify_college_id_with_models (Except.ok "yes") (Except.error "boom") "Jane" "CS1"
        = (false, idErrorMsg "boom", "")
    ∧ strContains (idErrorMsg "boom") "boom" = true :=
  ⟨by decide, by decide,
    (claim_C6_exception_downgrades "boom" "yes" "Jane" "CS1" "python" none
      (Except.ok { full_text := "", confidence_scores := [] })
      (by decide) (by decide)).2.1,
    (claim_C6_exception_downgrades "boom" "yes" "Jane" "CS1" "python" none
      (Except.ok { full_text := "", confidence_scores := [] })
      (by decide) (by decide)).2.2.2.2.1⟩

/-! ## Claim C7 -/

/-- Claim C7: when creation fails on a unique-index collision and the
store's duplicate-key error text identifies the colliding field (it
mentions that field and no other unique field of the entity), the raised
domain error names exactly that field. -/
theorem claim_C7_duplicate_field_named (msg : String) (c : College) (s : Student)
    (cdb : List College) (sdb : List Student)
    (hc : collegeUniqueCollision c cdb = true)
    (hs : studentUniqueCollision s sdb = true) :
    (strContains msg "name" = true ∧ strContains msg "college_id" = false ∧
        strContains msg "contact_email" = false ∧ strContains msg "contact_phone" = false →
      create_college c cdb msg
        = Sum.inr ("College name \x27" ++ c.name ++ "\x27 already exists"))
    ∧ (strContains msg "name" = false ∧ strContains msg "college_id" = true ∧
        strContains msg "contact_email" = false ∧ strContains msg "contact_phone" = false →
      create_college c cdb msg
        = Sum.inr ("College ID \x27" ++ c.college_id ++ "\x27 already exists"))
    ∧ (strContains msg "name" = false ∧ strContains msg "college_id" = false ∧
        strContains msg "contact_email" = true ∧ strContains msg "contact_phone" = false →
      create_college c cdb msg
        = Sum.inr ("Contact email \x27" ++ c.contact_email ++ "\x27 already exists"))
    ∧ (strContains msg "name" = false ∧ strContains msg "college_id" = false ∧
        strContains msg "contact_email" = false ∧ strContains msg "contact_phone" = true →
      create_college c cdb msg
        = Sum.inr ("Contact phone \x27" ++ c.contact_phone ++ "\x27 already exists"))
    ∧ (strContains msg "email" = true ∧ strContains msg "phone" = false ∧
        strContains msg "roll_no" = false →
      create_student s sdb msg = Sum.inr ("Email \x27" ++ s.email ++ "\x27 already exists"))
    ∧ (strContains msg "email" = false ∧ strContains msg "phone" = true ∧
        strContains msg "roll_no" = false →
      create_student s sdb msg
        = Sum.inr ("Phone number \x27" ++ s.phone ++ "\x27 already exists"))
    ∧ (strContains msg "email" = false ∧ strContains msg "phone" = false ∧
        strContains msg "roll_no" = true →
      create_student s sdb msg
        = Sum.inr ("Roll number \x27" ++ s.roll_no ++ "\x27 already exists")) := by
  refine ⟨?_, ?_, ?_, ?_, ?_, ?_, ?_⟩ <;> rintro ⟨h1, h2, h3⟩ <;>
    first
    | (obtain ⟨h3, h4⟩ := h3
       simp [create_college, hc, create_college_dup_message, h1, h2, h3, h4])
    | simp [create_student, hs, create_student_dup_message, h1, h2, h3]

/-- Witness for C7 with Mongo-style duplicate-key error texts. -/
theorem claim_C7_witness :
    collegeUniqueCollision c7College [c7CollegeOld] = true
    ∧ studentUniqueCollision c7Student [c1Student] = true
    ∧ strContains "duplicate key error index: college_id_1" "college_id" = true
    ∧ create_college c7College [c7CollegeOld] "duplicate key error index: college_id_1"
        = Sum.inr ("College ID \x27" ++ c7College.college_id ++ "\x27 already exists")
    ∧ create_student c7Student [c1Student] "duplicate key error index: roll_no_1"
        = Sum.inr ("Roll number \x27" ++ c7Student.roll_no ++ "\x27 already exists") :=
  ⟨by decide, by decide, by decide,
    (claim_C7_duplicate_field_named "duplicate key error index: college_id_1"
      c7College c7Student [c7CollegeOld] [c1Student] (by decide) (by decide)).2.1
      ⟨by decide, by decide, by decide, by decide⟩,
    (claim_C7_duplicate_field_named "duplicate key error index: roll_no_1"
      c7College c7Student [c7CollegeOld] [c1Student] (by decide) (by decide)).2.2.2.2.2.2
      ⟨by decide, by decide, by decide⟩⟩

/-! ## Claim C8 -/

/-- Claim C8: deleting a comment by a timestamp that matches no comment of
the (existing) student reports "Comment not found" and leaves the stored
collection — in particular the student's comments list — unchanged. -/
theorem claim_C8_delete_missing_comment (roll_no timestamp : String)
    (db : List Student) (s : Student)
    (hfind : db.find? (fun x => x.roll_no == roll_no) = some s)
    (hnone : ∀ c ∈ s.comments, c.timestamp ≠ timestamp) :
    delete_comment roll_no timestamp db = (db, false, "Comment not found") := by
  have hfix : ∀ t, db.find? (fun x => x.roll_no == roll_no) = some t →
      (fun x : Student =>
        { x with comments := x.comments.filter (fun c => !(c.timestamp == timestamp)) }) t = t := by
    intro t ht
    rw [hfind] at ht
    obtain rfl : s = t := Option.some.inj ht
    have hf : s.comments.filter (fun c => !(c.timestamp == timestamp)) = s.comments := by
      rw [List.filter_eq_self]
      intro c hc
      simpa using hnone c hc
    simp only [hf]
  simp only [delete_comment, updateFirstWhere_fix _ _ db hfix]
  simp

/-- Witness for C8 at a timestamp matching no stored comment. -/
theorem claim_C8_witness :
    [c8Student].find? (fun x => x.roll_no == "CS102") = some c8Student
    ∧ (∀ c ∈ c8Student.comments, c.timestamp ≠ "2099-12-31T23:59:59")
    ∧ delete_comment "CS102" "2099-12-31T23:59:59" [c8Student]
        = ([c8Student], false, "Comment not found") :=
  ⟨by decide, by decide,
    claim_C8_delete_missing_comment "CS102" "2099-12-31T23:59:59" [c8Student] c8Student
      (by decide) (by decide)⟩

/-! ## Claim C9 -/

/-- Claim C9: `update_student` applies only the supplied fields.  An empty
payload performs no write and returns the current record; a non-empty
payload rewrites exactly the first matching document to the `$set` result;
and each field left unset in the payload (as well as every document field
outside the payload) keeps its previous value. -/
theorem claim_C9_partial_update (u : StudentUpdate) (s : Student) (roll_no : String)
    (db l₁ l₂ : List Student) :
    (u.isEmpty = true → update_student roll_no u db = (db, get_student_by_roll_no roll_no db))
    ∧ ((∀ x ∈ l₁, (x.roll_no == roll_no) = false) → (s.roll_no == roll_no) = true →
        u.isEmpty = false →
        (update_student roll_no u (l₁ ++ s :: l₂)).1 = l₁ ++ applyStudentUpdate u s :: l₂)
    ∧ (u.college_name = none → (applyStudentUpdate u s).college_name = s.college_name)
    ∧ (u.name = none → (applyStudentUpdate u s).name = s.name)
    ∧ (u.email = none → (applyStudentUpdate u s).email = s.email)
    ∧ (u.phone = none → (applyStudentUpdate u s).phone = s.phone)
    ∧ (u.roll_no = none → (applyStudentUpdate u s).roll_no = s.roll_no)
    ∧ (u.branch = none → (applyStudentUpdate u s).branch = s.branch)
    ∧ (u.year = none → (applyStudentUpdate u s).year = s.year)
    ∧ (u.age = none → (applyStudentUpdate u s).age = s.age)
    ∧ (u.college_id_pic = none → (applyStudentUpdate u s).college_id_pic = s.college_id_pic)
    ∧ (applyStudentUpdate u s).password = s.password
    ∧ (applyStudentUpdate u s).skills = s.skills
    ∧ (applyStudentUpdate u s).achievements = s.achievements
    ∧ (applyStudentUpdate u s).projects = s.projects
    ∧ (applyStudentUpdate u s).comments = s.comments := by
  refine ⟨?_, ?_, ?_, ?_, ?_, ?_, ?_, ?_, ?_, ?_, ?_, rfl, rfl, rfl, rfl, rfl⟩
  · intro h
    simp [update_student, h]
  · intro h1 hs hne
    simp only [update_student, hne, Bool.false_eq_true, if_false]
    rw [updateFirstWhere_append _ _ s l₂ l₁ h1 hs]
    split
    · rfl
    · rfl
  all_goals intro h
  all_goals simp [applyStudentUpdate, h]

/-- Witness for C9: a name-only update rewrites the document to the `$set`
result and keeps the unset email field. -/
theorem claim_C9_witness :
    c9Update.isEmpty = false
    ∧ (c8Student.roll_no == "CS102") = true
    ∧ (update_student "CS102" c9Update [c8Student]).1 = [applyStudentUpdate c9Update c8Student]
    ∧ c9Update.email = none
    ∧ (applyStudentUpdate c9Update c8Student).email = c8Student.email :=
  ⟨by decide, by decide,
    (claim_C9_partial_update c9Update c8Student "CS102" [] [] []).2.1
      (by intro x hx; cases hx) (by decide) (by decide),
    by decide,
    (claim_C9_partial_update c9Update c8Student "CS102" [] [] []).2.2.2.2.1 rfl⟩

/-! ## Claim C2 (corrected) -/

/-- Counterexample to claim C2 as stated: the caption "No, this is not an
ID" lowercases to a string containing the keyword "id", so the caption
check passes and, with OCR text matching the student, ID verification
accepts — the outcome is not a rejection and does depend on the OCR
content. -/
theorem claim_C2_counterexample :
    verify_college_id_with_models (Except.ok "No, this is not an ID")
        (Except.ok { full_text := "Jane Smith CS101", confidence_scores := [] })
        "Jane Smith" "CS101"
      = (true, idSuccessMsg, "Jane Smith CS101") := by
  have hcap : idCaptionOk "No, this is not an ID" = true := by decide
  have hocr : strLower "Jane Smith CS101" ≠ "" := by decide
  have hsplit : pySplit (strLower "Jane Smith") = ["jane", "smith"] := by decide
  have hfilter : ((["jane", "smith"] : List String).filter
      (fun p => decide (2 < p.length) && strContains (strLower "Jane Smith CS101") p))
        = ["jane", "smith"] := by decide
  have hratio : idNameRatio "Jane Smith" (strLower "Jane Smith CS101") = 1 := by
    simp only [idNameRatio, hsplit, hfilter]
    rw [if_neg (by decide : ¬ (["jane", "smith"] : List String) = [])]
    norm_num
  have hroll : strContains (cleanChars (strLower "Jane Smith CS101"))
      (cleanChars (strLower "CS101")) = true := by decide
  have hocrd : strLower (OcrData.full_text
      { full_text := "Jane Smith CS101", confidence_scores := [] }) ≠ "" := hocr
  rw [verify_id_name_stage "No, this is not an ID" "Jane Smith" "CS101"
      { full_text := "Jane Smith CS101", confidence_scores := [] } hcap hocrd]
  rw [if_neg (by rw [hratio]; norm_num)]
  simp only [idRollStage, hroll, if_true]
  decide

/-- Claim C2 (amended): the heuristics reject immediately — the ID path
with its fixed message, the certificate path with zero image-type
confidence — exactly for captions whose lowercased form contains none of
the fixed keywords; the caption "No, this is not an ID", however, contains
the keyword "id" and therefore passes the ID caption check, so its outcome
depends on the OCR content. -/
theorem claim_C2_caption_keyword_gate (caption : String) :
    ((strContains (strLower caption) "yes" = false ∧
        strContains (strLower caption) "id" = false ∧
        strContains (strLower caption) "student" = false) →
      ∀ (ocr_result : Except String OcrData) (student_name roll_no : String),
        verify_college_id_with_models (Except.ok caption) ocr_result student_name roll_no
          = (false, msgNotIdCard, ""))
    ∧ ((strContains (strLower caption) "yes" = false ∧
        strContains (strLower caption) "certificate" = false ∧
        strContains (strLower caption) "award" = false) →
      ∀ (ocr_result : Except String OcrData) (student_name skill : String)
        (desc : Option String),
        verify_certificate_with_ai (Except.ok caption) ocr_result student_name skill desc
          = (false, msgNotCert, zeroScores)
        ∧ ((verify_certificate_with_ai (Except.ok caption) ocr_result student_name skill
              desc).2.2).image_type_match = 0)
    ∧ idCaptionOk "No, this is not an ID" = true := by
  refine ⟨?_, ?_, by decide⟩
  · rintro ⟨h1, h2, h3⟩ ocr_result student_name roll_no
    have hcap : idCaptionOk caption = false := by
      simp [idCaptionOk, h1, h2, h3]
    simp [verify_college_id_with_models, hcap]
  · rintro ⟨h1, h2, h3⟩ ocr_result student_name skill desc
    have hcap : certCaptionOk caption = false := by
      simp [certCaptionOk, h1, h2, h3]
    constructor
    · simp [verify_certificate_with_ai, hcap]
    · simp [verify_certificate_with_ai, hcap, zeroScores]

/-- Witness for the amended C2 at a caption containing no keyword. -/
theorem claim_C2_witness :
    strContains (strLower "A photo of a dog") "yes" = false
    ∧ strContains (strLower "A photo of a dog") "id" = false
    ∧ strContains (strLower "A photo of a dog") "student" = false
    ∧ verify_college_id_with_models (Except.ok "A photo of a dog")
        (Except.ok { full_text := "Jane Smith CS101", confidence_scores := [] })
        "Jane Smith" "CS101"
      = (false, msgNotIdCard, "") :=
  ⟨by decide, by decide, by decide,
    (claim_C2_caption_keyword_gate "A photo of a dog").1 ⟨by decide, by decide, by decide⟩
      (Except.ok { full_text := "Jane Smith CS101", confidence_scores := [] })
      "Jane Smith" "CS101"⟩

/-! ## Claim C3 -/

/-- Claim C3: the name-match ratio computed by the code equals the
spec-side formula (tokens of length above 2 found in the lowercased OCR
text over total tokens); with the caption passing and OCR text non-empty,
ID verification rejects at the name stage exactly when the ratio is below
0.6; and the name "Jane Smith" against OCR text containing
"jane smith cs101" scores ratio 1. -/
theorem claim_C3_name_match_ratio (caption student_name roll_no : String) (ocr : OcrData)
    (hcap : idCaptionOk caption = true)
    (hocr : strLower ocr.full_text ≠ "") :
    (idNameRatio student_name (strLower ocr.full_text)
        = spec_nameMatchRatio student_name (strLower ocr.full_text))
    ∧ (idNameRatio student_name (strLower ocr.full_text) < 3/5 →
        verify_college_id_with_models (Except.ok caption) (Except.ok ocr) student_name roll_no
          = (false, idNameRejectMsg student_name, ""))
    ∧ (¬ idNameRatio student_name (strLower ocr.full_text) < 3/5 →
        verify_college_id_with_models (Except.ok caption) (Except.ok ocr) student_name roll_no
          = idRollStage roll_no (strLower ocr.full_text) ocr.full_text)
    ∧ (strContains (strLower ocr.full_text) "jane smith cs101" = true →
        idNameRatio "Jane Smith" (strLower ocr.full_text) = 1) := by
  refine ⟨?_, ?_, ?_, ?_⟩
  · simp only [idNameRatio, spec_nameMatchRatio]
    by_cases hl : pySplit (strLower student_name) = []
    · simp [hl]
    · simp [hl]
  · intro h
    rw [verify_id_name_stage caption student_name roll_no ocr hcap hocr, if_pos h]
  · intro h
    rw [verify_id_name_stage caption student_name roll_no ocr hcap hocr, if_neg h]
  · intro h
    have h1 : strContains (strLower ocr.full_text) "jane" = true :=
      strContains_trans h (by decide)
    have h2 : strContains (strLower ocr.full_text) "smith" = true :=
      strContains_trans h (by decide)
    have hsplit : pySplit (strLower "Jane Smith") = ["jane", "smith"] := by decide
    have hj : decide (2 < ("jane" : String).length) = true := by decide
    have hsm : decide (2 < ("smith" : String).length) = true := by decide
    simp only [idNameRatio, hsplit]
    simp only [List.filter_cons, List.filter_nil, h1, h2, hj, Bool.true_and, hsm,
      Bool.and_self, if_true, List.length_cons, List.length_nil]
    rw [if_neg (by decide : ¬ (["jane", "smith"] : List String) = [])]
    norm_num

/-- Witness for C3: the Jane Smith scenario of the spec. -/
theorem claim_C3_witness :
    idCaptionOk "yes" = true
    ∧ strLower "jane smith cs101" ≠ ""
    ∧ strContains (strLower "jane smith cs101") "jane smith cs101" = true
    ∧ idNameRatio "Jane Smith" (strLower "jane smith cs101") = 1 :=
  ⟨by decide, by decide, by decide,
    (claim_C3_name_match_ratio "yes" "Jane Smith" "CS101"
      { full_text := "jane smith cs101", confidence_scores := [] }
      (by decide) (by decide)).2.2.2 (by decide)⟩

/-! ## Claim C4 -/

/-- Claim C4: with the earlier stages passed, the roll-number stage of ID
verification succeeds when the cleaned roll number is a contiguous
substring of the cleaned OCR text; otherwise it succeeds exactly when the
character-overlap ratio is at least 0.6 and rejects when that ratio is
below 0.6. -/
theorem claim_C4_roll_number_stage (caption student_name roll_no : String) (ocr : OcrData)
    (hcap : idCaptionOk caption = true)
    (hocr : strLower ocr.full_text ≠ "")
    (hname : ¬ idNameRatio student_name (strLower ocr.full_text) < 3/5) :
    (strContains (cleanChars (strLower ocr.full_text)) (cleanChars (strLower roll_no)) = true →
      verify_college_id_with_models (Except.ok caption) (Except.ok ocr) student_name roll_no
        = (true, idSuccessMsg, pyStrip ocr.full_text))
    ∧ (strContains (cleanChars (strLower ocr.full_text)) (cleanChars (strLower roll_no)) = false →
      (((verify_college_id_with_models (Except.ok caption) (Except.ok ocr)
            student_name roll_no).1 = true
          ↔ ¬ idRollRatio (cleanChars (strLower roll_no))
              (cleanChars (strLower ocr.full_text)) < 3/5)
        ∧ (idRollRatio (cleanChars (strLower roll_no))
              (cleanChars (strLower ocr.full_text)) < 3/5 →
            verify_college_id_with_models (Except.ok caption) (Except.ok ocr)
              student_name roll_no
              = (false, idRollRejectMsg roll_no, "")))) := by
  have hmain : verify_college_id_with_models (Except.ok caption) (Except.ok ocr)
      student_name roll_no = idRollStage roll_no (strLower ocr.full_text) ocr.full_text := by
    rw [verify_id_name_stage caption student_name roll_no ocr hcap hocr, if_neg hname]
  refine ⟨?_, ?_⟩
  · intro hc
    rw [hmain]
    simp only [idRollStage, hc, if_true]
  · intro hc
    constructor
    · rw [hmain]
      simp only [idRollStage, hc, Bool.false_eq_true, if_false]
      by_cases hr : idRollRatio (cleanChars (strLower roll_no))
          (cleanChars (strLower ocr.full_text)) < 3/5
      · simp [hr]
      · simp [hr]
    · intro hr
      rw [hmain]
      simp only [idRollStage, hc, Bool.false_eq_true, if_false, if_pos hr]

/-- Witness for C4: a roll number found contiguously after cleaning. -/
theorem claim_C4_witness :
    idCaptionOk "yes" = true
    ∧ strLower "john smith abc123" ≠ ""
    ∧ ¬ idNameRatio "John Smith" (strLower "john smith abc123") < 3/5
    ∧ strContains (cleanChars (strLower "john smith abc123"))
        (cleanChars (strLower "ABC-123")) = true
    ∧ verify_college_id_with_models (Except.ok "yes")
        (Except.ok { full_text := "john smith abc123", confidence_scores := [] })
        "John Smith" "ABC-123"
      = (true, idSuccessMsg, pyStrip "john smith abc123") := by
  have hsplit : pySplit (strLower "John Smith") = ["john", "smith"] := by decide
  have hfilter : ((["john", "smith"] : List String).filter
      (fun p => decide (2 < p.length) && strContains (strLower "john smith abc123") p))
        = ["john", "smith"] := by decide
  have hname : ¬ idNameRatio "John Smith" (strLower "john smith abc123") < 3/5 := by
    simp only [idNameRatio, hsplit, hfilter]
    rw [if_neg (by decide : ¬ (["john", "smith"] : List String) = [])]
    norm_num
  exact ⟨by decide, by decide, hname, by decide,
    (claim_C4_roll_number_stage "yes" "John Smith" "ABC-123"
      { full_text := "john smith abc123", confidence_scores := [] }
      (by decide) (by decide) hname).1 (by decide)⟩

/-! ## Claim C10 -/

/-- Claim C10: when the expected student name splits into no whitespace
tokens, the certificate name stage never rejects: the result is the
continuation of the later stages with `student_name_match` set to 1, for
every OCR text, and the returned scores carry `student_name_match = 1`. -/
theorem claim_C10_empty_name_tokens (caption student_name skill : String) (ocr : OcrData)
    (desc : Option String)
    (hcap : certCaptionOk caption = true)
    (hocr : strLower ocr.full_text ≠ "")
    (hname : pySplit (strLower student_name) = []) :
    verify_certificate_with_ai (Except.ok caption) (Except.ok ocr) student_name skill desc
      = certAfterName (c10Scores ocr.confidence_scores) (strLower ocr.full_text) skill desc
    ∧ ((verify_certificate_with_ai (Except.ok caption) (Except.ok ocr) student_name skill
          desc).2.2).student_name_match = 1 := by
  have hmain : verify_certificate_with_ai (Except.ok caption) (Except.ok ocr)
      student_name skill desc
      = certAfterName (c10Scores ocr.confidence_scores) (strLower ocr.full_text) skill desc := by
    simp only [verify_certificate_with_ai, hcap, Bool.not_true, Bool.false_eq_true, if_false,
      if_neg hocr, hname, if_pos, c10Scores]
  refine ⟨hmain, ?_⟩
  rw [hmain, certAfterName_name_match]
  rfl

/-- Witness for C10 with an all-whitespace student name. -/
theorem claim_C10_witness :
    certCaptionOk "yes" = true
    ∧ strLower "certificate of python" ≠ ""
    ∧ pySplit (strLower "  ") = []
    ∧ ((verify_certificate_with_ai (Except.ok "yes")
        (Except.ok { full_text := "certificate of python", confidence_scores := [] })
        "  " "python" none).2.2).student_name_match = 1 :=
  ⟨by decide, by decide, by decide,
    (claim_C10_empty_name_tokens "yes" "  " "python"
      { full_text := "certificate of python", confidence_scores := [] } none
      (by decide) (by decide) (by decide)).2⟩

end CommunityERP
